import Mathlib

/-!
Verification of the component-construction core of the `mlgym` repository.

The embedding models the Python values that flow through
`ml_gym/blueprints/constructables.py` (`Requirement.get_subscription`,
`ComponentConstructable.construct` / `get_requirement` / `has_requirement`)
and `ml_gym/metrics/metrics.py` (`MetricFactory.get_partial_metric`).

Python values are modelled by the inductive `PyVal`; Python dictionaries in
this code are always string-keyed, so a dict is an insertion-ordered
association list `List (String × PyVal)`.  Fallible Python operations
(indexing, dictionary lookup) return `Except PyErr PyVal`.
-/

/-- A Python value as used by the constructables module: `None`, an `int`,
a `str`, a `list`, or a string-keyed `dict` (insertion-ordered). -/
inductive PyVal where
  | none
  | int (n : Int)
  | str (s : String)
  | list (xs : List PyVal)
  | dict (entries : List (String × PyVal))

/-- Python exceptions raised by the modelled code.  `missingRequirement`
stands for the `KeyError` raised at the distinct site
`self.requirements[name]` in `ComponentConstructable.get_requirement`,
keeping it apart from `keyError` raised by container lookups inside a
`Requirement`. -/
inductive PyErr where
  | indexError
  | keyError (k : PyVal)
  | typeError
  | missingRequirement (name : String)

/-- Python truthiness (`bool(v)`) for the modelled values: `None`, `0`,
`""`, `[]` and `{}` are falsy. -/
def pyTruthy : PyVal → Bool
  | PyVal.none => false
  | PyVal.int n => decide (n ≠ 0)
  | PyVal.str s => decide (s ≠ "")
  | PyVal.list xs => !xs.isEmpty
  | PyVal.dict es => !es.isEmpty

/-- `v is None` in Python. -/
def isNone : PyVal → Bool
  | PyVal.none => true
  | _ => false

/-- Kind tests corresponding to `isinstance(v, int)`. -/
def isIntVal : PyVal → Bool
  | PyVal.int _ => true
  | _ => false

/-- Kind test corresponding to `isinstance(v, str)`. -/
def isStrVal : PyVal → Bool
  | PyVal.str _ => true
  | _ => false

/-- Kind test corresponding to `isinstance(v, list)`. -/
def isListVal : PyVal → Bool
  | PyVal.list _ => true
  | _ => false

/-- Kind test corresponding to `isinstance(v, collections.abc.Mapping)`. -/
def isMappingVal : PyVal → Bool
  | PyVal.dict _ => true
  | _ => false

/-- Python list indexing `xs[i]`: negative indices count from the end,
out-of-range indices raise `IndexError`. -/
def pyListIndex (xs : List PyVal) (i : Int) : Except PyErr PyVal :=
  let n : Int := xs.length
  let j : Int := if i < 0 then i + n else i
  if 0 ≤ j ∧ j < n then Except.ok (xs.getD j.toNat PyVal.none)
  else Except.error PyErr.indexError

/-- Python string indexing `s[i]`: yields the one-character string,
out-of-range indices raise `IndexError`. -/
def pyStrIndex (s : String) (i : Int) : Except PyErr PyVal :=
  let n : Int := s.length
  let j : Int := if i < 0 then i + n else i
  if 0 ≤ j ∧ j < n then Except.ok (PyVal.str (String.mk [s.data.getD j.toNat ' ']))
  else Except.error PyErr.indexError

/-- Lookup in an insertion-ordered string-keyed dictionary. -/
def dictFind (es : List (String × PyVal)) (k : String) : Option PyVal :=
  match es.find? (fun e => e.1 == k) with
  | some e => some e.2
  | Option.none => Option.none

/-- Lookup with default, used only to state theorems about successful
lookups. -/
def dictFindD (es : List (String × PyVal)) (k : String) : PyVal :=
  (dictFind es k).getD PyVal.none

/-- Python `d[k] = v` on an insertion-ordered dictionary: an existing key
keeps its position and gets the new value, a new key is appended. -/
def dictInsert (es : List (String × PyVal)) (k : String) (v : PyVal) :
    List (String × PyVal) :=
  if es.any (fun e => e.1 == k) then
    es.map (fun e => if e.1 == k then (k, v) else e)
  else es ++ [(k, v)]

/-- Python subscripting `container[key]` for the value shapes the module
uses: integer indexing on lists and strings, string lookup on dicts;
every other combination raises (`TypeError` for a non-integer index on a
sequence or an unsubscriptable container, `KeyError` for an absent or
unhashable-free missing dict key). -/
def pyGetItem : PyVal → PyVal → Except PyErr PyVal
  | PyVal.list xs, PyVal.int i => pyListIndex xs i
  | PyVal.list _, _ => Except.error PyErr.typeError
  | PyVal.str s, PyVal.int i => pyStrIndex s i
  | PyVal.str _, _ => Except.error PyErr.typeError
  | PyVal.dict es, PyVal.str k =>
      match dictFind es k with
      | some v => Except.ok v
      | Option.none => Except.error (PyErr.keyError (PyVal.str k))
  | PyVal.dict _, PyVal.list _ => Except.error PyErr.typeError
  | PyVal.dict _, PyVal.dict _ => Except.error PyErr.typeError
  | PyVal.dict _, k => Except.error (PyErr.keyError k)
  | _, _ => Except.error PyErr.typeError

/-- The list comprehension `[container[s] for s in subs]`, evaluated left
to right, stopping at the first raised error. -/
def pyListComp (container : PyVal) : List PyVal → Except PyErr (List PyVal)
  | [] => Except.ok []
  | s :: rest =>
      match pyGetItem container s with
      | Except.error e => Except.error e
      | Except.ok v =>
          match pyListComp container rest with
          | Except.error e => Except.error e
          | Except.ok vs => Except.ok (v :: vs)

/-- The dict comprehension `{s: container[s] for s in subs}` over a
string-keyed dict `es`, evaluated left to right into the accumulator
`acc`, stopping at the first raised error.  A non-string selector can
never reach the insert step: its lookup in a string-keyed dict always
raises first, so that arm is unreachable. -/
def pyDictComp (es : List (String × PyVal)) (acc : List (String × PyVal)) :
    List PyVal → Except PyErr (List (String × PyVal))
  | [] => Except.ok acc
  | s :: rest =>
      match pyGetItem (PyVal.dict es) s with
      | Except.error e => Except.error e
      | Except.ok v =>
          match s with
          | PyVal.str k => pyDictComp es (dictInsert acc k v) rest
          | _ => Except.error PyErr.typeError

/-- `Requirement` from `ml_gym/blueprints/constructables.py`:
`components` is the upstream artifact, `subscription` the selector value
(by default the empty list). -/
structure Requirement where
  components : PyVal := PyVal.none
  subscription : PyVal := PyVal.list []

/-- `Requirement.get_subscription`: an untruthy subscription returns the
components unchanged; a list subscription whose first element is an `int`
against a `list` of components runs the list comprehension, whose first
element is a `str` against a `Mapping` runs the dict comprehension, and
any other list subscription falls through the inner `if`/`elif` and
returns Python `None`; a non-list truthy subscription indexes the
components directly. -/
def Requirement.get_subscription (r : Requirement) : Except PyErr PyVal :=
  if pyTruthy r.subscription = false then
    Except.ok r.components
  else
    match r.subscription with
    | PyVal.list subs =>
        match subs.head?, r.components with
        | some (PyVal.int _), PyVal.list _ =>
            Except.map PyVal.list (pyListComp r.components subs)
        | some (PyVal.str _), PyVal.dict es =>
            Except.map PyVal.dict (pyDictComp es [] subs)
        | _, _ => Except.ok PyVal.none
    | s => pyGetItem r.components s

/-- `ComponentConstructable` from `ml_gym/blueprints/constructables.py`:
the memoization slot `constructed` is a nullable field defaulting to
`None`; `requirements` is the string-keyed wiring of `Requirement`s. -/
structure ComponentConstructable where
  component_identifier : String := ""
  constructed : PyVal := PyVal.none
  requirements : List (String × Requirement) := []

/-- `ComponentConstructable.construct`: if `self.constructed is None`,
invoke the producer `_construct_impl` (modelled by the `impl` argument:
its returned value, or the error it raises) and store its result, then
return `self.constructed`.  The `calls` counter is instrumentation that
counts producer invocations; the Python method performs the invocation
exactly when the `is None` test succeeds. -/
def ComponentConstructable.construct (impl : Except PyErr PyVal)
    (c : ComponentConstructable) (calls : Nat) :
    Except PyErr PyVal × ComponentConstructable × Nat :=
  if isNone c.constructed then
    match impl with
    | Except.ok v => (Except.ok v, { c with constructed := v }, calls + 1)
    | Except.error e => (Except.error e, c, calls + 1)
  else
    (Except.ok c.constructed, c, calls)

/-- `n` successive calls of `construct` with the same producer, starting
from node `c` with `calls` producer invocations so far; returns the
result of the `n`-th call together with the final node state and
invocation count. -/
def constructIter (impl : Except PyErr PyVal) (c : ComponentConstructable)
    (calls : Nat) : Nat → Except PyErr PyVal × ComponentConstructable × Nat
  | 0 => (Except.ok c.constructed, c, calls)
  | Nat.succ n =>
      let r := constructIter impl c calls n
      ComponentConstructable.construct impl r.2.1 r.2.2

/-- `ComponentConstructable.get_requirement`:
`self.requirements[name].get_subscription()`; the lookup
`self.requirements[name]` raises when `name` is not wired. -/
def ComponentConstructable.get_requirement (c : ComponentConstructable)
    (name : String) : Except PyErr PyVal :=
  match c.requirements.find? (fun e => e.1 == name) with
  | some p => p.2.get_subscription
  | Option.none => Except.error (PyErr.missingRequirement name)

/-- `ComponentConstructable.has_requirement`: `name in self.requirements`. -/
def ComponentConstructable.has_requirement (c : ComponentConstructable)
    (name : String) : Bool :=
  c.requirements.any (fun e => e.1 == name)

/-- The object returned by `functools.partial(Metric, identifier=...,
metric_fun=..., **params)` in `MetricFactory.get_partial_metric`: the
`Metric` constructor with the keyword arguments it has bound.  `F` is the
type of the metric function, which the factory never inspects. -/
structure MetricPartialApp (F : Type) where
  identifier : String
  metric_fun : F
  bound_params : List (String × PyVal)

/-- `MetricFactory.get_partial_metric` from `ml_gym/metrics/metrics.py`:
normalises `params=None` to the empty dict, then binds `identifier`,
`metric_fun` and the entries of `params` as keyword arguments of the
`Metric` constructor. -/
def MetricFactory.getPartialMetric {F : Type} (metric_key : String)
    (metric_fun : F) (params : Option (List (String × PyVal))) :
    MetricPartialApp F :=
  let ps : List (String × PyVal) :=
    match params with
    | Option.none => []
    | some p => p
  { identifier := metric_key, metric_fun := metric_fun, bound_params := ps }

/-- C6: for every container, resolving with the empty subscription returns
the container's content unchanged. -/
theorem claim_C6_empty_subscription_identity (c : PyVal) :
    Requirement.get_subscription ⟨c, PyVal.list []⟩ = Except.ok c := rfl

/-- C10: `get_partial_metric` with `params` omitted (`None`) behaves
exactly as with the empty mapping, binding `identifier := metric_key` and
`metric_fun` and no additional keyword arguments. -/
theorem claim_C10_default_params {F : Type} (k : String) (f : F) :
    MetricFactory.getPartialMetric k f Option.none =
        MetricFactory.getPartialMetric k f (some []) ∧
      MetricFactory.getPartialMetric k f Option.none =
        { identifier := k, metric_fun := f, bound_params := [] } :=
  ⟨rfl, rfl⟩

/-- C8: subscription resolution is a pure function of the container and
the subscription: equal inputs give equal results, and the embedding of
`get_subscription` is effect-free by construction (it only builds new
values, never mutating its inputs). -/
theorem claim_C8_pure_function (r₁ r₂ : Requirement)
    (hc : r₁.components = r₂.components)
    (hs : r₁.subscription = r₂.subscription) :
    r₁.get_subscription = r₂.get_subscription := by
  cases r₁
  cases r₂
  cases hc
  cases hs
  rfl

/-- C8 witness: two runs on the equal concrete inputs agree. -/
theorem claim_C8_witness :
    Requirement.get_subscription
        ⟨PyVal.dict [("a", PyVal.int 1)], PyVal.list [PyVal.str "a"]⟩ =
      Requirement.get_subscription
        ⟨PyVal.dict [("a", PyVal.int 1)], PyVal.list [PyVal.str "a"]⟩ :=
  claim_C8_pure_function _ _ rfl rfl

/-- C1 counterexample: `resolve({"a": 1}, [0])` — a string-keyed mapping
container with an integer subscription — does NOT fail: it silently
returns Python `None` (the claim asserts it fails with a `TypeMismatch`
condition rather than returning a value). -/
theorem claim_C1_counterexample :
    Requirement.get_subscription
        ⟨PyVal.dict [("a", PyVal.int 1)], PyVal.list [PyVal.int 0]⟩ =
      Except.ok PyVal.none := rfl

/-- C1 amended: for every container and non-empty list subscription whose
first element's kind does not match the container's shape, subscription
resolution raises no error and performs no selection: it returns Python
`None`. -/
theorem claim_C1_amended_mismatch_returns_none (c s : PyVal)
    (rest : List PyVal)
    (h1 : ¬(isIntVal s = true ∧ isListVal c = true))
    (h2 : ¬(isStrVal s = true ∧ isMappingVal c = true)) :
    Requirement.get_subscription ⟨c, PyVal.list (s :: rest)⟩ =
      Except.ok PyVal.none := by
  cases s <;> cases c <;>
    first
      | rfl
      | simp_all [isIntVal, isListVal, isStrVal, isMappingVal]

/-- C1 witness: string keys against a sequence container also silently
resolve to `None`. -/
theorem claim_C1_witness :
    Requirement.get_subscription
        ⟨PyVal.list [PyVal.int 7], PyVal.list [PyVal.str "k"]⟩ =
      Except.ok PyVal.none :=
  claim_C1_amended_mismatch_returns_none _ _ _ (by decide) (by decide)

/-- C9: a truthy non-list subscription resolves by indexing the container
directly with that single selector, yielding the single element (and not
a one-element sequence or mapping). -/
theorem claim_C9_scalar_subscription (c s : PyVal)
    (htruthy : pyTruthy s = true) (hlist : isListVal s = false) :
    Requirement.get_subscription ⟨c, s⟩ = pyGetItem c s := by
  cases s with
  | none => simp [pyTruthy] at htruthy
  | list xs => simp [isListVal] at hlist
  | int n => simp [Requirement.get_subscription, htruthy]
  | str t => simp [Requirement.get_subscription, htruthy]
  | dict es => simp [Requirement.get_subscription, htruthy]

/-- C9 witness: subscription `"a"` against `{"a": 1}` yields the bare
element `1`. -/
theorem claim_C9_witness :
    Requirement.get_subscription
        ⟨PyVal.dict [("a", PyVal.int 1)], PyVal.str "a"⟩ =
      pyGetItem (PyVal.dict [("a", PyVal.int 1)]) (PyVal.str "a") :=
  claim_C9_scalar_subscription _ _ (by decide) (by decide)

/-- C2 counterexample: a producer that returns `None` is re-invoked on
every call — after two `construct()` calls it has fired twice and the
node is indistinguishable from a fresh, unbuilt one — refuting both that
the producer fires exactly once regardless of its returned value and that
an absent `cached_output` is distinguishable from a returned falsy
(`None`) artifact. -/
theorem claim_C2_counterexample :
    constructIter (Except.ok PyVal.none) ⟨"", PyVal.none, []⟩ 0 2 =
      (Except.ok PyVal.none, ⟨"", PyVal.none, []⟩, 2) := rfl

/-- C2 amended: provided the producer's value is not `None`, calls 2..N of
`construct()` return the identical cached value and the producer fires
exactly once; non-`None` falsy artifacts (empty list, `0`, `""`) are
cached and hence distinguishable from the absent (`None`) slot, but a
producer returning `None` is re-invoked on every call. -/
theorem claim_C2_amended_memoization (v : PyVal) (c : ComponentConstructable)
    (n : Nat) (hv : isNone v = false) (hc : c.constructed = PyVal.none)
    (hn : 1 ≤ n) :
    constructIter (Except.ok v) c 0 n =
      (Except.ok v, { c with constructed := v }, 1) := by
  induction n with
  | zero => exact absurd hn (by decide)
  | succ m ih =>
      cases Nat.eq_zero_or_pos m with
      | inl h0 =>
          subst h0
          simp [constructIter, ComponentConstructable.construct, hc, isNone]
      | inr hpos =>
          simp [constructIter, ih hpos, ComponentConstructable.construct, hv]

/-- C2 witness: a producer returning `7` fires once across three calls,
which all return `7`. -/
theorem claim_C2_witness :
    constructIter (Except.ok (PyVal.int 7)) ⟨"", PyVal.none, []⟩ 0 3 =
      (Except.ok (PyVal.int 7), ⟨"", PyVal.int 7, []⟩, 1) :=
  claim_C2_amended_memoization _ _ _ rfl rfl (by decide)

/-- C3: when the producer raises, the error propagates unchanged, the
node's memoization slot stays `None` (the node remains UNBUILT, with its
whole state untouched), and a subsequent `construct()` call re-invokes
the producer from scratch (the invocation counter advances again,
whatever the second attempt does). -/
theorem claim_C3_failed_producer (e : PyErr) (c : ComponentConstructable)
    (calls : Nat) (hc : c.constructed = PyVal.none) :
    ComponentConstructable.construct (Except.error e) c calls =
        (Except.error e, c, calls + 1) ∧
      ∀ impl₂ : Except PyErr PyVal,
        (ComponentConstructable.construct impl₂ c (calls + 1)).2.2 =
          calls + 1 + 1 := by
  constructor
  · simp [ComponentConstructable.construct, hc, isNone]
  · intro impl₂
    cases impl₂ <;> simp [ComponentConstructable.construct, hc, isNone]

/-- C3 witness: a failing producer's `TypeError` propagates, the node is
unchanged, and the retry fires the producer again. -/
theorem claim_C3_witness :
    ComponentConstructable.construct (Except.error PyErr.typeError)
        ⟨"", PyVal.none, []⟩ 0 =
      (Except.error PyErr.typeError, ⟨"", PyVal.none, []⟩, 1) :=
  (claim_C3_failed_producer PyErr.typeError ⟨"", PyVal.none, []⟩ 0 rfl).1

/-- Selecting in-range non-negative indices from a list succeeds and
returns exactly the selected elements, in selector order. -/
theorem pyListComp_ints (xs : List PyVal) (ints : List Int)
    (h : ∀ i ∈ ints, 0 ≤ i ∧ i < (xs.length : Int)) :
    pyListComp (PyVal.list xs) (ints.map PyVal.int) =
      Except.ok (ints.map (fun i => xs.getD i.toNat PyVal.none)) := by
  induction ints with
  | nil => rfl
  | cons i rest ih =>
      have hi := h i (List.mem_cons_self i rest)
      have hrest := ih (fun j hj => h j (List.mem_cons_of_mem i hj))
      have hnneg : ¬ i < 0 := not_lt.mpr hi.1
      simp [pyListComp, pyGetItem, pyListIndex, hnneg, hi.1, hi.2, hrest]

/-- C4: for every sequence container and non-empty list of in-range
integer selectors, resolution returns the new sequence
`[container[i] for i in subscription]` in subscription order, permitting
reordering and duplication. -/
theorem claim_C4_list_subscription (xs : List PyVal) (ints : List Int)
    (hne : ints ≠ [])
    (h : ∀ i ∈ ints, 0 ≤ i ∧ i < (xs.length : Int)) :
    Requirement.get_subscription
        ⟨PyVal.list xs, PyVal.list (ints.map PyVal.int)⟩ =
      Except.ok
        (PyVal.list (ints.map (fun i => xs.getD i.toNat PyVal.none))) := by
  cases ints with
  | nil => exact absurd rfl hne
  | cons i rest =>
      have hcomp := pyListComp_ints xs (i :: rest) h
      simp only [List.map_cons] at hcomp
      simp [Requirement.get_subscription, pyTruthy, hcomp, Except.map]

/-- C4 witness: resolving `[a, b, c]` with subscription `[2, 0]` yields
`[c, a]`. -/
theorem claim_C4_witness :
    Requirement.get_subscription
        ⟨PyVal.list [PyVal.str "a", PyVal.str "b", PyVal.str "c"],
         PyVal.list [PyVal.int 2, PyVal.int 0]⟩ =
      Except.ok (PyVal.list [PyVal.str "c", PyVal.str "a"]) :=
  claim_C4_list_subscription
    [PyVal.str "a", PyVal.str "b", PyVal.str "c"] [2, 0]
    (by decide) (by decide)

/-- Selecting present, pairwise-distinct string keys from a string-keyed
dict builds exactly the selected entries, appended to the accumulator in
selector order. -/
theorem pyDictComp_strs (es : List (String × PyVal)) (ks : List String)
    (acc : List (String × PyVal))
    (hpres : ∀ k ∈ ks, (dictFind es k).isSome = true)
    (hnd : ks.Nodup)
    (hdisj : ∀ k ∈ ks, acc.any (fun e => e.1 == k) = false) :
    pyDictComp es acc (ks.map PyVal.str) =
      Except.ok (acc ++ ks.map (fun k => (k, dictFindD es k))) := by
  induction ks generalizing acc with
  | nil => simp [pyDictComp]
  | cons k rest ih =>
      obtain ⟨v, hv⟩ :=
        Option.isSome_iff_exists.mp (hpres k (List.mem_cons_self k rest))
      have hfindD : dictFindD es k = v := by simp [dictFindD, hv]
      have hins : dictInsert acc k v = acc ++ [(k, v)] := by
        simp [dictInsert, hdisj k (List.mem_cons_self k rest)]
      have hknotrest : k ∉ rest := (List.nodup_cons.mp hnd).1
      have hdisj' : ∀ k' ∈ rest,
          (acc ++ [(k, v)]).any (fun e => e.1 == k') = false := by
        intro k' hk'
        have h1 : acc.any (fun e => e.1 == k') = false :=
          hdisj k' (List.mem_cons_of_mem k hk')
        have h2 : (k == k') = false := by
          have : k ≠ k' := fun hkk => hknotrest (hkk ▸ hk')
          simpa using this
        simp [List.any_append, h1, h2]
      have hstep : pyDictComp es acc (PyVal.str k :: rest.map PyVal.str) =
          pyDictComp es (acc ++ [(k, v)]) (rest.map PyVal.str) := by
        simp [pyDictComp, pyGetItem, hv, hins]
      have hrest := ih (acc ++ [(k, v)])
        (fun k' hk' => hpres k' (List.mem_cons_of_mem k hk'))
        (List.nodup_cons.mp hnd).2 hdisj'
      simp only [List.map_cons]
      rw [hstep, hrest, hfindD]
      simp

/-- C5: for every string-keyed mapping container and non-empty list of
present, pairwise-distinct string selectors, resolution returns the new
mapping `{k: container[k] for k in subscription}` whose insertion order
equals the subscription order. -/
theorem claim_C5_mapping_subscription (es : List (String × PyVal))
    (ks : List String) (hne : ks ≠ []) (hnd : ks.Nodup)
    (hpres : ∀ k ∈ ks, (dictFind es k).isSome = true) :
    Requirement.get_subscription
        ⟨PyVal.dict es, PyVal.list (ks.map PyVal.str)⟩ =
      Except.ok (PyVal.dict (ks.map (fun k => (k, dictFindD es k)))) := by
  cases ks with
  | nil => exact absurd rfl hne
  | cons k rest =>
      have hcomp := pyDictComp_strs es (k :: rest) [] hpres hnd
        (by intro k' hk'; rfl)
      simp only [List.map_cons, List.nil_append] at hcomp
      simp [Requirement.get_subscription, pyTruthy, hcomp, Except.map]

/-- C5 witness: resolving `{"train": 1, "val": 2, "test": 3}` with
subscription `["test", "train"]` yields `{"test": 3, "train": 1}`. -/
theorem claim_C5_witness :
    Requirement.get_subscription
        ⟨PyVal.dict
            [("train", PyVal.int 1), ("val", PyVal.int 2),
             ("test", PyVal.int 3)],
         PyVal.list [PyVal.str "test", PyVal.str "train"]⟩ =
      Except.ok
        (PyVal.dict [("test", PyVal.int 3), ("train", PyVal.int 1)]) :=
  claim_C5_mapping_subscription
    [("train", PyVal.int 1), ("val", PyVal.int 2), ("test", PyVal.int 3)]
    ["test", "train"] (by decide) (by decide) (by decide)

/-- Mapping a function over an `Except` cannot introduce an error that the
original computation did not raise. -/
theorem except_map_ne_error {A B : Type} (f : A → B) (x : Except PyErr A)
    (e : PyErr) (hx : x ≠ Except.error e) :
    Except.map f x ≠ Except.error e := by
  cases x <;> simp_all [Except.map]

/-- Container subscripting never raises the requirements-lookup error. -/
theorem pyGetItem_ne_missing (c k : PyVal) (name : String) :
    pyGetItem c k ≠ Except.error (PyErr.missingRequirement name) := by
  cases c <;> cases k <;>
    simp only [pyGetItem, pyListIndex, pyStrIndex, dictFind] <;>
    (repeat' split) <;> simp_all

/-- The list comprehension never raises the requirements-lookup error. -/
theorem pyListComp_ne_missing (c : PyVal) (subs : List PyVal)
    (name : String) :
    pyListComp c subs ≠ Except.error (PyErr.missingRequirement name) := by
  induction subs with
  | nil => simp [pyListComp]
  | cons s rest ih =>
      simp only [pyListComp]
      cases hg : pyGetItem c s with
      | error e =>
          intro hcontra
          injection hcontra with h'
          exact pyGetItem_ne_missing c s name (h' ▸ hg)
      | ok v =>
          cases hr : pyListComp c rest with
          | error e =>
              intro hcontra
              injection hcontra with h'
              exact ih (h' ▸ hr)
          | ok vs => simp

/-- The dict comprehension never raises the requirements-lookup error. -/
theorem pyDictComp_ne_missing (es : List (String × PyVal))
    (acc : List (String × PyVal)) (subs : List PyVal) (name : String) :
    pyDictComp es acc subs ≠
      Except.error (PyErr.missingRequirement name) := by
  induction subs generalizing acc with
  | nil => simp [pyDictComp]
  | cons s rest ih =>
      simp only [pyDictComp]
      cases hg : pyGetItem (PyVal.dict es) s with
      | error e =>
          intro hcontra
          injection hcontra with h'
          exact pyGetItem_ne_missing (PyVal.dict es) s name (h' ▸ hg)
      | ok v =>
          cases s with
          | str k => exact ih (dictInsert acc k v)
          | none => simp
          | int n => simp
          | list xs => simp
          | dict es2 => simp

/-- Subscription resolution never raises the requirements-lookup error:
its failures are container-level (`IndexError`, `KeyError`, `TypeError`). -/
theorem get_subscription_ne_missing (r : Requirement) (name : String) :
    r.get_subscription ≠ Except.error (PyErr.missingRequirement name) := by
  obtain ⟨comps, sub⟩ := r
  by_cases h : pyTruthy sub = false
  · simp [Requirement.get_subscription, h]
  · cases sub with
    | none => simp [pyTruthy] at h
    | int n =>
        simpa [Requirement.get_subscription, h] using
          pyGetItem_ne_missing comps (PyVal.int n) name
    | str s =>
        simpa [Requirement.get_subscription, h] using
          pyGetItem_ne_missing comps (PyVal.str s) name
    | dict es =>
        simpa [Requirement.get_subscription, h] using
          pyGetItem_ne_missing comps (PyVal.dict es) name
    | list subs =>
        simp only [Requirement.get_subscription, h, if_false]
        cases subs with
        | nil => simp [pyTruthy] at h
        | cons s rest =>
            cases s <;> cases comps <;> simp <;>
              first
                | exact except_map_ne_error PyVal.list _ _
                    (pyListComp_ne_missing _ _ name)
                | exact except_map_ne_error PyVal.dict _ _
                    (pyDictComp_ne_missing _ _ _ name)

/-- C7: `get_requirement(name)` fails with the missing-requirement error
exactly when `name` is not wired in the node's requirements mapping, and
when `name` is wired it returns that requirement's resolved, possibly
subscripted value `requirements[name].get_subscription()`. -/
theorem claim_C7_get_requirement (c : ComponentConstructable)
    (name : String) :
    (ComponentConstructable.get_requirement c name =
          Except.error (PyErr.missingRequirement name) ↔
        c.requirements.find? (fun e => e.1 == name) = Option.none) ∧
      ∀ p, c.requirements.find? (fun e => e.1 == name) = some p →
        ComponentConstructable.get_requirement c name =
          p.2.get_subscription := by
  constructor
  · constructor
    · intro h
      cases hf : c.requirements.find? (fun e => e.1 == name) with
      | none => rfl
      | some p =>
          have heq : ComponentConstructable.get_requirement c name =
              p.2.get_subscription := by
            simp [ComponentConstructable.get_requirement, hf]
          rw [heq] at h
          exact absurd h (get_subscription_ne_missing p.2 name)
    · intro hf
      simp [ComponentConstructable.get_requirement, hf]
  · intro p hf
    simp [ComponentConstructable.get_requirement, hf]

/-- C7 witness: a wired requirement resolves through `get_subscription`,
and an unwired name fails with the missing-requirement error. -/
theorem claim_C7_witness :
    ComponentConstructable.get_requirement
        ⟨"", PyVal.none, [("repo", ⟨PyVal.int 5, PyVal.list []⟩)]⟩
        "repo" =
      Except.ok (PyVal.int 5) := by
  have h := (claim_C7_get_requirement
      ⟨"", PyVal.none, [("repo", ⟨PyVal.int 5, PyVal.list []⟩)]⟩
      "repo").2 ("repo", ⟨PyVal.int 5, PyVal.list []⟩) rfl
  rw [h]
  rfl
